import Mathlib

/-!
Verification of the pysway specification against a shallow embedding of the
source (src/pysway/ipc.py and src/pysway/extra/utils.py).

Bytes are modelled as `Nat` values below 256, byte strings as `List Nat`.
The sway tree snapshot (the JSON value returned by a GET_TREE round trip)
is modelled as an inductive `Node` carrying exactly the fields the source
reads; Python's `dict.get` of an absent key is modelled with `Option`.
-/

namespace Pysway

/-! ## Transport framing (SwayIPC._send / SwayIPC._recv, ipc.py:39-73) -/

/-- The 6-byte magic literal b"i3-ipc" (bytes 105,51,45,105,112,99). -/
def magicBytes : List Nat := [105, 51, 45, 105, 112, 99]

/-- Little-endian 4-byte encoding of a 32-bit value, as produced for each
"I" field of struct.pack("=6sII", ...) on a little-endian host. -/
def u32le (n : Nat) : List Nat :=
  [n % 256, n / 256 % 256, n / 65536 % 256, n / 16777216 % 256]

/-- Little-endian 4-byte decoding, as performed for each "I" field of
struct.unpack("=6sII", ...). -/
def u32dec : List Nat → Nat
  | [b0, b1, b2, b3] => b0 + 256 * b1 + 65536 * b2 + 16777216 * b3
  | _ => 0

/-- SwayIPC._send (ipc.py:39-42): header = struct.pack("=6sII", b"i3-ipc",
len(payload_bytes), msg_type), then sendall(header + payload_bytes). The
result is the exact byte string written to the socket. -/
def encodeFrame (msg_type : Nat) (payload : List Nat) : List Nat :=
  (magicBytes ++ u32le payload.length ++ u32le msg_type) ++ payload

/-- One growth loop `while len(buffer) < target: chunk = recv(remaining)`
from SwayIPC._recv. `stream` is the byte sequence the peer has sent,
`sched` is the kernel's chunking schedule: at each loop iteration the
kernel delivers `min(sched head, remaining)` bytes (recv never returns more
than asked). An empty chunk means the peer closed the stream (the source
returns None); an exhausted schedule means the read would block forever and
is likewise mapped to `none`. Returns the bytes read, the unread stream and
the unused schedule. -/
def recvLoop : List Nat → List Nat → Nat → Option (List Nat × List Nat × List Nat)
  | s, sch, 0 => some ([], s, sch)
  | _, [], _ + 1 => none
  | s, c :: sch, need + 1 =>
    let k := min c (need + 1)
    let chunk := s.take k
    if chunk.isEmpty then none
    else
      match recvLoop (s.drop k) sch (need + 1 - chunk.length) with
      | none => none
      | some (rest, s', sch') => some (chunk ++ rest, s', sch')

/-- Outcome of SwayIPC._recv: `closed` models the `return None` branches,
`invalidMagic` models `raise ValueError("Invalid IPC magic")`, and
`ok` carries the decoded message type together with the raw payload bytes
`buffer[14 : 14 + length]` that are then handed to json.loads (equal byte
strings decode to the same JSON value). -/
inductive RecvOutcome where
  | closed
  | invalidMagic
  | ok (msg_type : Nat) (payload : List Nat)
deriving DecidableEq

/-- SwayIPC._recv (ipc.py:53-73): read exactly 14 header bytes, unpack
("=6sII"), check the magic, then read exactly `length` payload bytes. -/
def recvFrame (stream sched : List Nat) : RecvOutcome :=
  match recvLoop stream sched 14 with
  | none => .closed
  | some (hdr, s1, sch1) =>
    if hdr.take 6 = magicBytes then
      let len := u32dec ((hdr.drop 6).take 4)
      let ty := u32dec ((hdr.drop 10).take 4)
      match recvLoop s1 sch1 len with
      | none => .closed
      | some (pl, _, _) => .ok ty pl
    else .invalidMagic

/-! ## Tree model (one GET_TREE snapshot)

A sway tree node as the source reads it: a loosely-typed record whose
absent keys surface as `None` through `dict.get`. Children live in the two
ordered lists `nodes` and `floating_nodes`. The fetched JSON carries no
"parent" member and no code in the repository ever assigns one. -/

/-- The "rect" sub-record; `.get` with a default is modelled by `Option`
fields read with `getD`. -/
structure Rect where
  x : Option Int
  y : Option Int
  width : Option Int
  height : Option Int
deriving DecidableEq

inductive Node where
  | mk (ntype : Option String) (id : Option Int) (name : Option String)
      (pid : Option Int) (shell : Option String) (focused : Bool)
      (scratchpad_state : Option String) (rect : Option Rect)
      (current_workspace : Option String)
      (nodes : List Node) (floating_nodes : List Node)

def Node.ntype : Node → Option String
  | .mk t _ _ _ _ _ _ _ _ _ _ => t

def Node.id : Node → Option Int
  | .mk _ i _ _ _ _ _ _ _ _ _ => i

def Node.name : Node → Option String
  | .mk _ _ nm _ _ _ _ _ _ _ _ => nm

def Node.pid : Node → Option Int
  | .mk _ _ _ p _ _ _ _ _ _ _ => p

def Node.shell : Node → Option String
  | .mk _ _ _ _ sh _ _ _ _ _ _ => sh

def Node.focused : Node → Bool
  | .mk _ _ _ _ _ f _ _ _ _ _ => f

def Node.scratchpad_state : Node → Option String
  | .mk _ _ _ _ _ _ sc _ _ _ _ => sc

def Node.rect : Node → Option Rect
  | .mk _ _ _ _ _ _ _ r _ _ _ => r

def Node.current_workspace : Node → Option String
  | .mk _ _ _ _ _ _ _ _ cw _ _ => cw

def Node.nodes : Node → List Node
  | .mk _ _ _ _ _ _ _ _ _ ns _ => ns

def Node.floating_nodes : Node → List Node
  | .mk _ _ _ _ _ _ _ _ _ _ fs => fs

mutual
/-- The depth-first enumeration order every traversal in ipc.py follows:
the node itself, then the `nodes` children, then the `floating_nodes`
children (the source iterates `node.get("nodes", []) +
node.get("floating_nodes", [])`). -/
def preorder : Node → List Node
  | .mk t i nm p sh f sc r cw ns fs =>
    Node.mk t i nm p sh f sc r cw ns fs :: (preorderList ns ++ preorderList fs)

def preorderList : List Node → List Node
  | [] => []
  | c :: cs => preorder c ++ preorderList cs
end

mutual
/-- SwayIPC.get_focused_view / the focused-node search inside
get_focused_output (ipc.py:303-316, 335-343): return the first node in
traversal order whose `focused` flag is truthy, recursing into `nodes`
then `floating_nodes`, with early exit. -/
def find_focused_node : Node → Option Node
  | .mk t i nm p sh f sc r cw ns fs =>
    if f then some (Node.mk t i nm p sh f sc r cw ns fs)
    else
      match find_focused_in ns with
      | some x => some x
      | none => find_focused_in fs

def find_focused_in : List Node → Option Node
  | [] => none
  | c :: cs =>
    match find_focused_node c with
    | some x => some x
    | none => find_focused_in cs
end

mutual
/-- SwayIPC.get_view (ipc.py:268-301): depth-first search for the first
node whose "id" equals view_id. The source retries the identical search on
up to 10 fresh fetches; over one fixed snapshot every fetch returns the
same tree, so the retry loop reduces to a single search. -/
def find_by_id : Node → Int → Option Node
  | .mk t i nm p sh f sc r cw ns fs, vid =>
    if i = some vid then some (Node.mk t i nm p sh f sc r cw ns fs)
    else
      match find_by_id_in ns vid with
      | some x => some x
      | none => find_by_id_in fs vid

def find_by_id_in : List Node → Int → Option Node
  | [], _ => none
  | c :: cs, vid =>
    match find_by_id c vid with
    | some x => some x
    | none => find_by_id_in cs vid
end

/-- The view filter of SwayIPC.list_views (ipc.py:258): type is "con" or
"floating_con". -/
def isViewType (n : Node) : Bool :=
  n.ntype = some "con" || n.ntype = some "floating_con"

/-- The second condition of SwayIPC.list_views (ipc.py:259): `node.get("id")`
must be truthy, i.e. present and nonzero. -/
def truthyId (n : Node) : Bool :=
  match n.id with
  | some i => i ≠ 0
  | none => false

mutual
/-- SwayIPC.list_views (ipc.py:251-266): collect, in traversal order, every
node whose type is "con"/"floating_con" and whose "id" is truthy, the node
being appended before its children are visited. -/
def list_views : Node → List Node
  | .mk t i nm p sh f sc r cw ns fs =>
    (if isViewType (Node.mk t i nm p sh f sc r cw ns fs)
        && truthyId (Node.mk t i nm p sh f sc r cw ns fs)
      then [Node.mk t i nm p sh f sc r cw ns fs] else [])
      ++ (list_views_in ns ++ list_views_in fs)

def list_views_in : List Node → List Node
  | [] => []
  | c :: cs => list_views c ++ list_views_in cs
end

/-! ## Query engine over one snapshot (ipc.py) -/

/-- SwayIPC.get_output with key=None (ipc.py:318-329): among the root's
direct children of type "output", return the first whose "id" equals
output_id, else None. -/
def get_output (t : Node) (output_id : Int) : Option Node :=
  (t.nodes.filter (fun n => decide (n.ntype = some "output"))).find?
    (fun n => decide (n.id = some output_id))

/-- No statement in the repository ever assigns node["parent"]: get_tree
hands back the json.loads result unchanged and the wire-format node has no
"parent" member, so `focused_node.get("parent")` inside get_focused_output
is None for every node of a fetched snapshot. -/
def storedParent (_n : Node) : Option Node := none

/-- The `while focused_node.get("type") != "output"` loop of
SwayIPC.get_focused_output (ipc.py:350-354), over an explicit parent
relation and with explicit fuel (the Python loop would diverge on a cyclic
parent chain; over storedParent it performs at most one test, see
ascend_via_storedParent). -/
def ascend_via (parent : Node → Option Node) : Nat → Node → Option Node
  | 0, _ => none
  | fuel + 1, n =>
    if n.ntype = some "output" then some n
    else
      match parent n with
      | none => none
      | some p => ascend_via parent fuel p

/-- SwayIPC.get_focused_output (ipc.py:331-356): find the focused node,
then walk parent links until a node of type "output". The fuel
(preorder t).length is at least 1 and, over storedParent, any positive
fuel gives the same result. -/
def get_focused_output (t : Node) : Option Node :=
  match find_focused_node t with
  | none => none
  | some n => ascend_via storedParent (preorder t).length n

/-- A dynamically-typed Python value as utils.py receives it from
SwayIPC.get_focused_output: that method returns a node dict or None,
never an int. -/
inductive PyVal where
  | pyNone
  | pyInt (n : Int)
  | pyNode (n : Node)

/-- The value of `self._sock.get_focused_output()` as seen by the
`isinstance(focused_output_id, int)` checks in utils.py:180 and 210. -/
def get_focused_output_py (t : Node) : PyVal :=
  match get_focused_output t with
  | none => .pyNone
  | some n => .pyNode n

/-! ## Policy helpers (extra/utils.py) -/

/-- SwayUtils.get_workspaces_from_focused_output (utils.py:171-200):
requires `isinstance(focused_output_id, int)`; when it holds, looks the
output up by id and keeps its immediate children of type "workspace",
otherwise returns []. -/
def get_workspaces_from_focused_output (t : Node) : List Node :=
  match get_focused_output_py t with
  | .pyInt fid =>
    match get_output t fid with
    | none => []
    | some out => out.nodes.filter (fun n => decide (n.ntype = some "workspace"))
  | _ => []

/-- SwayUtils.get_focused_workspace (utils.py:202-231): int-check the
focused output id, fetch the output node, read its (truthy)
current_workspace name, and return the first workspace of the focused
output with that name. -/
def get_focused_workspace (t : Node) : Option Node :=
  match get_focused_output_py t with
  | .pyInt fid =>
    match get_output t fid with
    | none => none
    | some out =>
      match out.current_workspace with
      | none => none
      | some cw =>
        if cw = "" then none
        else
          (get_workspaces_from_focused_output t).find?
            (fun n => decide (n.ntype = some "workspace" ∧ n.name = some cw))
  | _ => none

/-! ## Command builder -/

/-- One `_send(msg_type, payload)` socket write. -/
structure SendOp where
  mtype : Nat
  payload : String
deriving DecidableEq

/-- SwayIPC.is_xwayland_view (ipc.py:87-97): view.get("shell") equals
"xwayland". -/
def is_xwayland_view (v : Node) : Bool :=
  decide (v.shell = some "xwayland")

/-- The selector key the dual-selector idiom picks. -/
def selector_key (v : Node) : String :=
  if is_xwayland_view v then "id" else "con_id"

/-- The dual-selector idiom repeated at utils.py:82-85, 295-298, 324-327,
406-418 and ipc.py:216-219: "[id=<id>]" for an XWayland view, else
"[con_id=<id>]". -/
def selector_for (v : Node) (view_id : Int) : String :=
  if is_xwayland_view v then "[id=" ++ toString view_id ++ "]"
  else "[con_id=" ++ toString view_id ++ "]"

/-- The command string uses the XWayland selector key: it begins with the
four characters "[id=". -/
def startsWithIdKey (s : String) : Prop :=
  ∃ r, s.data = '[' :: 'i' :: 'd' :: '=' :: r

/-! ## View-targeting commands (ipc.py) -/

/-- SwayIPC.close_view (ipc.py:130-145): sends `[id=<view_id>] kill`
without consulting the view's shell. -/
def close_view (view_id : Int) : List SendOp :=
  [⟨0, "[id=" ++ toString view_id ++ "] kill"⟩]

/-- SwayIPC.set_view_focus (ipc.py:400-410): sends `[id=<view_id>] focus`
without consulting the view's shell. -/
def set_view_focus (view_id : Int) : List SendOp :=
  [⟨0, "[id=" ++ toString view_id ++ "] focus"⟩]

def opacityErrorMsg : String := "Opacity must be between 0.0 and 1.0"

/-- SwayIPC.set_view_alpha (ipc.py:147-157): raise ValueError unless
0.0 <= opacity <= 1.0, and only then perform the socket write. The float
argument is modelled as a rational: float comparison is exact and every
finite float is rational (a NaN argument also fails the check and raises).
Returns (raised error, socket writes performed). -/
def set_view_alpha (view_id : Int) (opacity : ℚ) : Option String × List SendOp :=
  if 0 ≤ opacity ∧ opacity ≤ 1 then
    (none, [⟨0, "[id=" ++ toString view_id ++ "] opacity " ++ toString opacity⟩])
  else (some opacityErrorMsg, [])

/-- The fixed event allow-list of SwayIPC.watch (ipc.py:419-430). -/
def valid_events : List String :=
  ["workspace", "window", "output", "mode", "barconfig_update", "binding",
   "shutdown", "tick", "bar_state_update", "input"]

/-- json.dumps of a list of strings, as used for the subscribe payload. -/
def json_dumps_strings (l : List String) : String :=
  "[" ++ String.intercalate ", " (l.map (fun s => "\"" ++ s ++ "\"")) ++ "]"

inductive WatchOutcome where
  | ok
  | invalidEvents
  | subscribeFailed
deriving DecidableEq

/-- SwayIPC.watch (ipc.py:412-450): default to the full allow-list when no
events are given; otherwise raise ValueError when any supplied name is
outside the allow-list, before any socket write. On success send one
SUBSCRIBE frame with the JSON-encoded list, then receive a reply whose
"success" field is abstracted by reply_success (False raises
RuntimeError after the write). Returns (outcome, socket writes). -/
def watch (events : Option (List String)) (reply_success : Bool) :
    WatchOutcome × List SendOp :=
  match events with
  | none =>
    ((if reply_success then .ok else .subscribeFailed),
     [⟨2, json_dumps_strings valid_events⟩])
  | some evs =>
    if (evs.filter (fun e => !(valid_events.contains e))).isEmpty then
      ((if reply_success then .ok else .subscribeFailed),
       [⟨2, json_dumps_strings evs⟩])
    else (.invalidEvents, [])

/-! ## Policy layer (extra/utils.py) -/

/-- Steps 1-4 of SwayUtils.show_desktop (utils.py:37-70): resolve the
output's current workspace by name among the output's children and keep
the workspace's immediate children of type "con"/"floating_con". -/
def show_desktop_views (t : Node) (output_id : Int) : List Node :=
  match get_output t output_id with
  | none => []
  | some out =>
    match out.current_workspace with
    | none => []
    | some wsname =>
      if wsname = "" then []
      else
        match out.nodes.find?
            (fun n => decide (n.ntype = some "workspace" ∧ n.name = some wsname)) with
        | none => []
        | some wsnode =>
          wsnode.nodes.filter
            (fun n => decide (n.ntype = some "con" ∨ n.ntype = some "floating_con"))

/-- Steps 5-6 of SwayUtils.show_desktop (utils.py:72-92): if every view's
scratchpad_state is "fresh" send `scratchpad show` to each view, else send
`move scratchpad` to each, the selector chosen per view by the
dual-selector rule (`view["id"]` is read by direct indexing; absent ids,
which make the source raise KeyError, are modelled as 0). -/
def show_desktop (t : Node) (output_id : Int) : List SendOp :=
  let vs := show_desktop_views t output_id
  if vs.isEmpty then []
  else
    let allFresh := vs.all (fun v => decide (v.scratchpad_state = some "fresh"))
    vs.map (fun v =>
      ⟨0, selector_for v (v.id.getD 0)
          ++ (if allFresh then " scratchpad show" else " move scratchpad")⟩)

/-- SwayUtils.move_view_to_workspace (utils.py:289-305): resolve the view,
pick its selector by the dual-selector rule, send one move command. -/
def move_view_to_workspace (t : Node) (view_id : Int) (workspace_name : String) :
    Bool × List SendOp :=
  match find_by_id t view_id with
  | none => (false, [])
  | some v => (true, [⟨0, selector_for v view_id ++ " move workspace " ++ workspace_name⟩])

/-- SwayUtils.move_view_to_new_empty_workspace (utils.py:307-366): resolve
the view; derive the target workspace name from its pid ("unknown" when the
pid is absent or falsy); send `workspace <name>` when no workspace of the
focused output carries that name; then delegate to move_view_to_workspace.
Workspace names are read by direct indexing (`ws["name"]`); an absent name,
which would raise KeyError, is modelled as "". -/
def move_view_to_new_empty_workspace (t : Node) (view_id : Int) :
    Bool × List SendOp :=
  match find_by_id t view_id with
  | none => (false, [])
  | some v =>
    let workspace_name :=
      match v.pid with
      | none => "unknown"
      | some p => if p = 0 then "unknown" else toString p
    let names := (get_workspaces_from_focused_output t).map (fun ws => ws.name.getD "")
    let createCmds : List SendOp :=
      if names.contains workspace_name then [] else [⟨0, "workspace " ++ workspace_name⟩]
    let mv := move_view_to_workspace t view_id workspace_name
    (mv.1, createCmds ++ mv.2)

/-- The inner loop of SwayUtils.get_next_workspace_with_views
(utils.py:256-262): a workspace is non-empty when some immediate child in
its `nodes` list has type "con" or "floating_con". -/
def hasImmediateView (ws : Node) : Bool :=
  ws.nodes.any (fun n => decide (n.ntype = some "con" ∨ n.ntype = some "floating_con"))

/-- The de-duplicating filter loop of get_next_workspace_with_views
(utils.py:247-262): first-seen order, each name considered once, kept when
the workspace has an immediate view (`ws["name"]` indexing modelled with
"" for the KeyError case). -/
def collectNonEmpty : List Node → List String → List String
  | [], _ => []
  | ws :: rest, seen =>
    let nm := ws.name.getD ""
    if seen.contains nm then collectNonEmpty rest seen
    else if hasImmediateView ws then nm :: collectNonEmpty rest (nm :: seen)
    else collectNonEmpty rest (nm :: seen)

/-- SwayUtils.get_next_workspace_with_views (utils.py:242-277). -/
def get_next_workspace_with_views (t : Node) : Option String :=
  let workspaces := get_workspaces_from_focused_output t
  if workspaces.isEmpty then none
  else
    let non_empty_names := collectNonEmpty workspaces []
    if non_empty_names.isEmpty then none
    else
      match get_focused_workspace t with
      | none => non_empty_names.head?
      | some cur =>
        match non_empty_names.findIdx? (fun nm => nm == cur.name.getD "") with
        | none => non_empty_names.head?
        | some idx => non_empty_names[(idx + 1) % non_empty_names.length]?

/-- SwayUtils.go_next_workspace_with_views (utils.py:279-287): run
`workspace <name>` unless the lookup produced nothing. -/
def go_next_workspace_with_views (t : Node) : List SendOp :=
  match get_next_workspace_with_views t with
  | none => []
  | some nm => [⟨0, "workspace " ++ nm⟩]

/-- SwayIPC.configure_view (ipc.py:188-238): resolve the view, pick its
selector by the dual-selector rule, optionally move to an output, enable
floating, send `move position x y` only when x > 0 or y > 0 (the source
comments "skip moving the view"), then `resize set w h`. -/
def configure_view (t : Node) (view_id x y w h : Int) (output_id : Option Int) :
    Bool × List SendOp :=
  match find_by_id t view_id with
  | none => (false, [])
  | some v =>
    let sel := selector_for v view_id
    let moveOut : List SendOp :=
      match output_id with
      | some oid => [⟨0, sel ++ " move to output id " ++ toString oid⟩]
      | none => []
    let movePos : List SendOp :=
      if 0 < x ∨ 0 < y then
        [⟨0, sel ++ " move position " ++ toString x ++ " " ++ toString y⟩]
      else []
    (true, moveOut ++ [⟨0, sel ++ " floating enable"⟩] ++ movePos
      ++ [⟨0, sel ++ " resize set " ++ toString w ++ " " ++ toString h⟩])

/-- SwayUtils.maximize_view (utils.py:421-473): resolve the focused
workspace and its rect (width/height defaulting to 1920/1080), resolve the
view, send `floating enable` through the dual-selector rule, then delegate
to configure_view at position (0, 0) and the rect's size. -/
def maximize_view (t : Node) (view_id : Int) : Bool × List SendOp :=
  match get_focused_workspace t with
  | none => (false, [])
  | some ws =>
    match ws.rect with
    | none => (false, [])
    | some rect =>
      let w := rect.width.getD 1920
      let h := rect.height.getD 1080
      match find_by_id t view_id with
      | none => (false, [])
      | some v =>
        let conf := configure_view t view_id 0 0 w h none
        (conf.1, ⟨0, selector_for v view_id ++ " floating enable"⟩ :: conf.2)

/-- Models `next(i for i, v in enumerate(views) if v["id"] == focused_id)`
in go_next_view_in_workspace (utils.py:403): `none` is a KeyError raised by
`v["id"]` on an id-less view reached before any match, `some none` is
StopIteration, `some (some i)` is the first matching index. -/
def scan_for_focused_idx : List Node → Int → Nat → Option (Option Nat)
  | [], _, _ => some none
  | v :: vs, fid, i =>
    match v.id with
    | none => none
    | some vid => if vid = fid then some (some i) else scan_for_focused_idx vs fid (i + 1)

/-- SwayUtils.go_next_view_in_workspace (utils.py:383-419): take the
focused workspace's `nodes`, or its `floating_nodes` when that list is
empty; return silently when at most one candidate remains; otherwise focus
the circular successor of the focused view, falling back to the first
candidate on StopIteration. `none` models an uncaught exception
(TypeError on `get_focused_view()["id"]` when nothing is focused, or
KeyError on a missing "id"); `some cmds` models a normal return that
performed exactly the writes `cmds`. -/
def go_next_view_in_workspace (t : Node) : Option (List SendOp) :=
  match get_focused_workspace t with
  | none => some []
  | some ws =>
    let views := if ws.nodes.isEmpty then ws.floating_nodes else ws.nodes
    if views.length ≤ 1 then some []
    else
      match find_focused_node t with
      | none => none
      | some fv =>
        match fv.id with
        | none => none
        | some fid =>
          match scan_for_focused_idx views fid 0 with
          | none => none
          | some (some idx) =>
            match views[(idx + 1) % views.length]? with
            | none => none
            | some nv =>
              match nv.id with
              | none => none
              | some nid => some [⟨0, selector_for nv nid ++ " focus"⟩]
          | some none =>
            match views.head? with
            | none => some []
            | some v0 =>
              match v0.id with
              | none => none
              | some vid0 => some [⟨0, selector_for v0 vid0 ++ " focus"⟩]

/-! ## Spec-side comparison definition for claim C2 -/

mutual
/-- Modelled from the spec: the parent back-references that §3/§4.2 say are
"populated at fetch time" are missing from the source, so the structural
ancestor chain is reconstructed here during the focused-node search. The
result is the focused node consed onto its structural ancestors, nearest
parent first. -/
def focused_chain : Node → List Node → Option (List Node)
  | .mk t i nm p sh f sc r cw ns fs, anc =>
    let here := Node.mk t i nm p sh f sc r cw ns fs :: anc
    if f then some here
    else
      match focused_chain_in ns here with
      | some c => some c
      | none => focused_chain_in fs here

def focused_chain_in : List Node → List Node → Option (List Node)
  | [], _ => none
  | c :: cs, anc =>
    match focused_chain c anc with
    | some r => some r
    | none => focused_chain_in cs anc
end

/-- Modelled from the spec: `ascend_to_output(node)` — "walk parent links
from a node upward until a node of type output is reached, or fail (None)
if no parent chain reaches one", applied to the focused node over the
structural parent chain. -/
def spec_ascend_to_output (t : Node) : Option Node :=
  match focused_chain t [] with
  | none => none
  | some chain => chain.find? (fun n => decide (n.ntype = some "output"))

/-! ## Concrete snapshots used as inputs -/

/-- The focused view (one window) of workspace "2" in the spec's scenario. -/
def c1view2 : Node :=
  .mk (some "con") (some 20) (some "term") none none true none none none [] []

/-- The single view of workspace "3" in the spec's scenario. -/
def c1view3 : Node :=
  .mk (some "con") (some 21) (some "editor") none none false none none none [] []

def c1ws1 : Node :=
  .mk (some "workspace") (some 10) (some "1") none none false none none none [] []

def c1ws2 : Node :=
  .mk (some "workspace") (some 11) (some "2") none none false
    (some "none") (some ⟨some 0, some 0, some 1920, some 1080⟩) none [c1view2] []

def c1ws3 : Node :=
  .mk (some "workspace") (some 12) (some "3") none none false none none none [c1view3] []

/-- Output "DP-1" with workspaces "1" (empty), "2" (one view, focused,
current) and "3" (one view). -/
def c1output : Node :=
  .mk (some "output") (some 1) (some "DP-1") none none false none none
    (some "2") [c1ws1, c1ws2, c1ws3] []

/-- The spec's scenario snapshot: root → output "DP-1" → workspaces
"1"/"2"/"3", focus on the view of workspace "2". -/
def c1tree : Node :=
  .mk (some "root") none (some "root") none none false none none none [c1output] []

/-- A wayland (non-XWayland) view with id 5. -/
def c6view : Node :=
  .mk (some "con") (some 5) none none (some "wayland") false none none none [] []

def c6tree : Node :=
  .mk (some "root") none none none none false none none none [c6view] []

/-- An XWayland view with id 9. -/
def xwView : Node :=
  .mk (some "con") (some 9) none none (some "xwayland") false none none none [] []

/-- A focused view with pid 4242 sitting in a workspace already named
"4242" on its output. -/
def c9view : Node :=
  .mk (some "con") (some 7) none (some 4242) none true none none none [] []

def c9ws : Node :=
  .mk (some "workspace") (some 2) (some "4242") none none false none none none [c9view] []

def c9output : Node :=
  .mk (some "output") (some 1) (some "eDP-1") none none false none none
    (some "4242") [c9ws] []

def c9tree : Node :=
  .mk (some "root") none (some "root") none none false none none none [c9output] []

/-- A con node with no "id" key. -/
def c8view : Node :=
  .mk (some "con") none none none none false none none none [] []

def c8tree : Node :=
  .mk (some "root") none none none none false none none none [c8view] []

/-! ## Theorems (framing) -/

theorem u32dec_u32le (n : Nat) (h : n < 4294967296) : u32dec (u32le n) = n := by
  simp only [u32le, u32dec]
  omega

theorem recvLoop_ok (sched : List Nat) :
    ∀ (s : List Nat) (need : Nat),
      (∀ c ∈ sched, 1 ≤ c) → need ≤ sched.length → need ≤ s.length →
      ∃ k ≤ need, recvLoop s sched need = some (s.take need, s.drop need, sched.drop k) := by
  induction sched with
  | nil =>
    intro s need _ hlen _
    have hneed : need = 0 := by simpa using hlen
    subst hneed
    exact ⟨0, Nat.le_refl 0, rfl⟩
  | cons c rest ih =>
    intro s need hpos hlen hs
    match need with
    | 0 => exact ⟨0, Nat.le_refl 0, rfl⟩
    | need + 1 =>
      have hc : 1 ≤ c := hpos c (List.mem_cons_self c rest)
      have hk1 : 1 ≤ min c (need + 1) := le_min hc (Nat.succ_le_succ (Nat.zero_le _))
      have hkneed : min c (need + 1) ≤ need + 1 := min_le_right _ _
      have hks : min c (need + 1) ≤ s.length := le_trans hkneed hs
      have hchunklen : (s.take (min c (need + 1))).length = min c (need + 1) := by
        simp [List.length_take]
        omega
      have hne : ¬ (s.take (min c (need + 1))).isEmpty := by
        rw [List.isEmpty_iff_length_eq_zero, hchunklen]
        omega
      have hrec := ih (s.drop (min c (need + 1))) (need + 1 - min c (need + 1))
        (fun x hx => hpos x (List.mem_cons_of_mem c hx))
        (by simp at hlen; omega)
        (by simp [List.length_drop]; omega)
      obtain ⟨k, hkle, hrec⟩ := hrec
      refine ⟨k + 1, by omega, ?_⟩
      rw [recvLoop]
      simp only [hne, if_false, Bool.false_eq_true, hchunklen, hrec]
      rw [← List.take_add, ← List.drop_drop, List.drop_drop]
      have : min c (need + 1) + (need + 1 - min c (need + 1)) = need + 1 := by omega
      rw [this]
      simp [List.drop_succ_cons]

/-- Claim C3: frame round trip. For every message-type code below 2^32 and
every payload byte string shorter than 2^32 bytes, encoding with _send's
14-byte header (6-byte magic b"i3-ipc", 4-byte payload length, 4-byte type
code) and decoding with _recv's two growth-loop reads, under any kernel
chunking schedule that delivers at least one byte per iteration (so a large
payload spans many read iterations), reproduces the original type code and
the exact payload bytes, hence a JSON-equivalent payload. -/
theorem C3_frame_round_trip (ty : Nat) (pl sched : List Nat)
    (hty : ty < 4294967296) (hpl : pl.length < 4294967296)
    (hpos : ∀ c ∈ sched, 1 ≤ c) (hsched : 14 + pl.length ≤ sched.length) :
    recvFrame (encodeFrame ty pl) sched = .ok ty pl := by
  have hhdr : (magicBytes ++ (u32le pl.length ++ u32le ty)).length = 14 := by
    simp [magicBytes, u32le]
  have hstream : encodeFrame ty pl = (magicBytes ++ (u32le pl.length ++ u32le ty)) ++ pl := by
    simp [encodeFrame, List.append_assoc]
  have hslen : (encodeFrame ty pl).length = 14 + pl.length := by
    rw [hstream, List.length_append, hhdr]
  obtain ⟨k, hk, h1⟩ := recvLoop_ok sched (encodeFrame ty pl) 14 hpos (by omega)
    (by rw [hslen]; omega)
  have htake : (encodeFrame ty pl).take 14 = magicBytes ++ (u32le pl.length ++ u32le ty) := by
    rw [hstream]; exact List.take_left' hhdr
  have hdrop : (encodeFrame ty pl).drop 14 = pl := by
    rw [hstream]; exact List.drop_left' hhdr
  rw [htake, hdrop] at h1
  have h6 : (magicBytes ++ (u32le pl.length ++ u32le ty)).take 6 = magicBytes :=
    List.take_left' (by simp [magicBytes])
  have hlenfield : ((magicBytes ++ (u32le pl.length ++ u32le ty)).drop 6).take 4
      = u32le pl.length := by
    rw [List.drop_left' (show magicBytes.length = 6 by simp [magicBytes])]
    exact List.take_left' (by simp [u32le])
  have htyfield : ((magicBytes ++ (u32le pl.length ++ u32le ty)).drop 10).take 4
      = u32le ty := by
    rw [show magicBytes ++ (u32le pl.length ++ u32le ty)
        = (magicBytes ++ u32le pl.length) ++ u32le ty from by simp [List.append_assoc]]
    rw [List.drop_left' (show (magicBytes ++ u32le pl.length).length = 10 by
      simp [magicBytes, u32le])]
    exact List.take_of_length_le (by simp [u32le])
  obtain ⟨k2, hk2, h2⟩ := recvLoop_ok (sched.drop k) pl pl.length
    (fun c hc => hpos c (List.mem_of_mem_drop hc))
    (by simp only [List.length_drop]; omega)
    (Nat.le_refl _)
  simp only [recvFrame, h1, h6, if_pos, hlenfield, htyfield,
    u32dec_u32le pl.length hpl, u32dec_u32le ty hty, h2, List.take_length]

/-- Witness for C3 at payload lengths 0, 1 and 65537 (more than 64KB), with
a one-byte-per-iteration chunking schedule, so the large payload spans
65537 read iterations. -/
theorem C3_frame_round_trip_witness :
    recvFrame (encodeFrame 4 []) (List.replicate 14 1) = .ok 4 []
    ∧ recvFrame (encodeFrame 0 [123]) (List.replicate 15 1) = .ok 0 [123]
    ∧ recvFrame (encodeFrame 2 (List.replicate 65537 48)) (List.replicate 65551 1)
        = .ok 2 (List.replicate 65537 48) := by
  refine ⟨?_, ?_, ?_⟩
  · exact C3_frame_round_trip 4 [] (List.replicate 14 1) (by omega) (by simp)
      (fun c hc => by rw [List.eq_of_mem_replicate hc]) (by simp)
  · exact C3_frame_round_trip 0 [123] (List.replicate 15 1) (by omega) (by simp)
      (fun c hc => by rw [List.eq_of_mem_replicate hc]) (by simp)
  · exact C3_frame_round_trip 2 (List.replicate 65537 48) (List.replicate 65551 1)
      (by omega) (by simp only [List.length_replicate]; omega)
      (fun c hc => by rw [List.eq_of_mem_replicate hc])
      (by simp only [List.length_replicate]; omega)

/-! ## Theorems (tree queries and policy layer) -/

theorem preorder_length_pos (n : Node) : 1 ≤ (preorder n).length := by
  cases n
  rw [preorder]
  simp

/-- Over the never-populated parent relation, the upward walk of
get_focused_output stops after at most one type test, whatever the fuel. -/
theorem ascend_via_storedParent (fuel : Nat) (hf : 1 ≤ fuel) (n : Node) :
    ascend_via storedParent fuel n
      = if n.ntype = some "output" then some n else none := by
  match fuel with
  | f + 1 => rw [ascend_via]; rfl

/-- utils.py:179-182 binds the node-or-None result of get_focused_output to
`focused_output_id` and requires `isinstance(focused_output_id, int)`, which
never holds, so get_workspaces_from_focused_output returns [] on every
snapshot. -/
theorem get_workspaces_from_focused_output_eq_nil (t : Node) :
    get_workspaces_from_focused_output t = [] := by
  unfold get_workspaces_from_focused_output get_focused_output_py
  cases get_focused_output t <;> rfl

/-- The same isinstance check at utils.py:209-211 makes
get_focused_workspace return None on every snapshot. -/
theorem get_focused_workspace_eq_none (t : Node) :
    get_focused_workspace t = none := by
  unfold get_focused_workspace get_focused_output_py
  cases get_focused_output t <;> rfl

/-- Claim C2 (amended): get_focused_output finds the focused node and then
walks stored parent links, but no parent back-reference is populated at
fetch time, so on every snapshot it returns the focused node when that node
itself has type "output" and None otherwise. -/
theorem C2_get_focused_output_amended (t : Node) :
    get_focused_output t
      = match find_focused_node t with
        | none => none
        | some n => if n.ntype = some "output" then some n else none := by
  unfold get_focused_output
  cases find_focused_node t with
  | none => rfl
  | some n => exact ascend_via_storedParent _ (preorder_length_pos t) n

/-- Counterexample to claim C2 as stated: in the scenario snapshot the
focused node is a view whose structural ancestor chain contains the output
node, yet get_focused_output returns None, because the parent
back-references the claim says are populated at fetch time never are. -/
theorem C2_parent_links_counterexample :
    get_focused_output c1tree = none
    ∧ spec_ascend_to_output c1tree = some c1output
    ∧ c1output.ntype = some "output" := ⟨rfl, rfl, rfl⟩

/-- Claim C1 (code bug evaluation): on the spec's scenario snapshot
(output "DP-1", workspaces "1" empty, "2" one focused view, "3" one view)
the source returns None instead of "3" and sends no command:
get_workspaces_from_focused_output always yields [] because it
type-checks the node dict returned by get_focused_output against int, and
get_focused_output itself yields None for want of parent links. -/
theorem C1_next_workspace_at_scenario :
    get_next_workspace_with_views c1tree = none
    ∧ go_next_workspace_with_views c1tree = [] := ⟨rfl, rfl⟩

/-- Claim C4 (code bug evaluation): on the scenario snapshot, whose focused
workspace "2" carries a rect and contains view 20, maximize_view returns
False and performs no socket write at all — get_focused_workspace always
returns None — instead of enabling floating mode and resizing to the rect. -/
theorem C4_maximize_view_at_scenario :
    maximize_view c1tree 20 = (false, []) := rfl

/-- Claim C9 (code bug evaluation): view 7 has pid 4242 and its output
already carries a workspace named "4242", yet the source still issues the
create command `workspace 4242` before the move command, because the
existing-workspace check consults get_workspaces_from_focused_output,
which always returns []. -/
theorem C9_move_view_at_scenario :
    move_view_to_new_empty_workspace c9tree 7
      = (true, [⟨0, "workspace 4242"⟩, ⟨0, "[con_id=7] move workspace 4242"⟩])
    ∧ c9output.nodes.map Node.name = [some "4242"] := ⟨rfl, rfl⟩

/-- Claim C10: whenever the focused workspace's candidate view list (its
`nodes`, or its `floating_nodes` when `nodes` is empty) has at most one
element — in particular whenever there is no focused workspace at all —
go_next_view_in_workspace returns normally with no socket write. -/
theorem C10_no_command_when_few_views (t : Node)
    (h : ((get_focused_workspace t).map
        (fun ws => (if ws.nodes.isEmpty then ws.floating_nodes else ws.nodes).length)).getD 0
      ≤ 1) :
    go_next_view_in_workspace t = some [] := by
  unfold go_next_view_in_workspace
  cases hfw : get_focused_workspace t with
  | none => rfl
  | some ws =>
    rw [hfw] at h
    simp at h
    simp [h]

/-- Witness for C10 at a concrete snapshot (no focused workspace, so the
candidate list is empty). -/
theorem C10_no_command_when_few_views_witness :
    ((get_focused_workspace c8tree).map
        (fun ws => (if ws.nodes.isEmpty then ws.floating_nodes else ws.nodes).length)).getD 0
      ≤ 1
    ∧ go_next_view_in_workspace c8tree = some [] :=
  ⟨by decide, C10_no_command_when_few_views c8tree (by decide)⟩

mutual
theorem list_views_eq_filter (n : Node) :
    list_views n = (preorder n).filter (fun m => isViewType m && truthyId m) := by
  match n with
  | .mk t i nm p sh f sc r cw ns fs =>
    rw [list_views, preorder, List.filter_cons, List.filter_append,
      list_views_in_eq_filter ns, list_views_in_eq_filter fs]
    cases hc : isViewType (Node.mk t i nm p sh f sc r cw ns fs)
        && truthyId (Node.mk t i nm p sh f sc r cw ns fs) <;> simp [hc]

theorem list_views_in_eq_filter (l : List Node) :
    list_views_in l = (preorderList l).filter (fun m => isViewType m && truthyId m) := by
  match l with
  | [] => rfl
  | c :: cs =>
    rw [list_views_in, preorderList, List.filter_append,
      list_views_eq_filter c, list_views_in_eq_filter cs]
end

/-- Claim C8 (amended): list_views returns, in the deterministic preorder
(each node before its children, `nodes` children before `floating_nodes`
children), exactly the nodes of the snapshot whose type is "con" or
"floating_con" AND whose "id" is truthy (present and nonzero); a
con/floating_con node without a truthy id is silently dropped. -/
theorem C8_list_views_amended (t : Node) :
    list_views t = (preorder t).filter (fun m => isViewType m && truthyId m) :=
  list_views_eq_filter t

/-- Counterexample to claim C8 as stated: a snapshot containing a node of
type "con" with no "id" key; the node is in the snapshot but list_views
does not return it. -/
theorem C8_untruthy_id_counterexample :
    isViewType c8view = true
    ∧ c8view ∈ preorder c8tree
    ∧ list_views c8tree = [] := by
  refine ⟨rfl, ?_, rfl⟩
  rw [show preorder c8tree = [c8tree, c8view] from rfl]
  exact List.mem_cons_of_mem _ (List.mem_cons_self _ _)

/-! ## Theorems (selector rule) -/

/-- Any string continuing the literal "[id=" uses the XWayland key. -/
theorem startsWithIdKey_append_id (s : String) : startsWithIdKey ("[id=" ++ s) :=
  ⟨s.data, by rw [String.data_append]; rfl⟩

/-- No string continuing the literal "[con_id=" uses the XWayland key. -/
theorem not_startsWithIdKey_append_con_id (s : String) :
    ¬ startsWithIdKey ("[con_id=" ++ s) := by
  rintro ⟨r, hr⟩
  rw [String.data_append] at hr
  have h : ('[' :: 'c' :: 'o' :: 'n' :: '_' :: 'i' :: 'd' :: '=' :: s.data)
      = '[' :: 'i' :: 'd' :: '=' :: r := hr
  injection h with _ h1
  injection h1 with h2 _
  exact absurd h2 (by decide)

/-- The selector key of any command built from the dual-selector idiom is
"id" exactly for XWayland views, whatever follows the selector. -/
theorem startsWithIdKey_selector_iff (v : Node) (i : Int) (rest : String) :
    startsWithIdKey (selector_for v i ++ rest) ↔ is_xwayland_view v = true := by
  unfold selector_for
  by_cases hx : is_xwayland_view v
  · rw [if_pos hx, String.append_assoc, String.append_assoc]
    exact iff_of_true (startsWithIdKey_append_id _) hx
  · rw [if_neg hx, String.append_assoc, String.append_assoc]
    exact iff_of_false (not_startsWithIdKey_append_con_id _) (by simpa using hx)

/-- The two selector forms for one id are distinct strings. -/
theorem id_sel_ne_con_id_sel (a b : String) : "[id=" ++ a ≠ "[con_id=" ++ b := by
  intro h
  have h2 := congrArg String.data h
  rw [String.data_append, String.data_append] at h2
  have h3 : ('[' :: 'i' :: 'd' :: '=' :: a.data)
      = '[' :: 'c' :: 'o' :: 'n' :: '_' :: 'i' :: 'd' :: '=' :: b.data := h2
  injection h3 with _ h4
  injection h4 with h5 _
  exact absurd h5 (by decide)

/-- Claim C5: the selector is a pure function of the node's shell; it
always has the shape "[<key>=<id>]" with key "id" exactly when the shell is
the XWayland discriminator and "con_id" otherwise, and for a fixed id
exactly one of the two forms — which differ only in the key name — is
produced. -/
theorem C5_selector_pure (v w : Node) (i : Int) :
    (v.shell = w.shell → selector_for v i = selector_for w i)
    ∧ selector_for v i = "[" ++ selector_key v ++ "=" ++ (toString i ++ "]")
    ∧ (selector_key v = "id" ↔ is_xwayland_view v = true)
    ∧ (selector_key v = "id" ∨ selector_key v = "con_id")
    ∧ ¬(selector_for v i = "[id=" ++ (toString i ++ "]")
        ∧ selector_for v i = "[con_id=" ++ (toString i ++ "]")) := by
  refine ⟨?_, ?_, ?_, ?_, ?_⟩
  · intro hsh
    unfold selector_for is_xwayland_view
    rw [hsh]
  · unfold selector_for selector_key
    by_cases hx : is_xwayland_view v
    · rw [if_pos hx, if_pos hx, String.append_assoc]
      rfl
    · rw [if_neg hx, if_neg hx, String.append_assoc]
      rfl
  · unfold selector_key
    by_cases hx : is_xwayland_view v
    · rw [if_pos hx]
      exact iff_of_true rfl hx
    · rw [if_neg hx]
      exact iff_of_false (by decide) (by simpa using hx)
  · unfold selector_key
    by_cases hx : is_xwayland_view v
    · exact Or.inl (if_pos hx)
    · exact Or.inr (if_neg hx)
  · rintro ⟨h1, h2⟩
    exact id_sel_ne_con_id_sel _ _ (h1.symm.trans h2)

/-- Witness for C5: an XWayland view gets the "[id=...]" form and a
wayland view the "[con_id=...]" form. -/
theorem C5_selector_pure_witness :
    selector_for xwView 9 = "[id=9]" ∧ selector_for c6view 5 = "[con_id=5]" := by
  constructor
  · rw [(C5_selector_pure xwView xwView 9).2.1]
    rfl
  · rw [(C5_selector_pure c6view c6view 5).2.1]
    rfl

/-- Claim C6 (amended): commands built by show_desktop and
move_view_to_workspace route their selector through the dual-selector rule
(key "id" iff the target view's shell is "xwayland"), but close_view and
set_view_focus hard-code the "[id=...]" form for every view id, without
consulting any view's shell. -/
theorem C6_selector_routing_amended (t : Node) (oid vid : Int) (nm : String) :
    (∀ c ∈ show_desktop t oid, ∃ v ∈ show_desktop_views t oid,
        (startsWithIdKey c.payload ↔ is_xwayland_view v = true))
    ∧ (∀ v, find_by_id t vid = some v →
        ∀ c ∈ (move_view_to_workspace t vid nm).2,
          (startsWithIdKey c.payload ↔ is_xwayland_view v = true))
    ∧ (∀ c ∈ close_view vid, startsWithIdKey c.payload)
    ∧ (∀ c ∈ set_view_focus vid, startsWithIdKey c.payload) := by
  refine ⟨?_, ?_, ?_, ?_⟩
  · intro c hc
    unfold show_desktop at hc
    by_cases he : (show_desktop_views t oid).isEmpty
    · simp [he] at hc
    · simp only [he, Bool.false_eq_true, if_neg, if_false, List.mem_map] at hc
      obtain ⟨v, hv, rfl⟩ := hc
      exact ⟨v, hv, startsWithIdKey_selector_iff v _ _⟩
  · intro v hv c hc
    unfold move_view_to_workspace at hc
    rw [hv] at hc
    simp only [List.mem_singleton] at hc
    subst hc
    show startsWithIdKey (selector_for v vid ++ " move workspace " ++ nm)
      ↔ is_xwayland_view v = true
    rw [String.append_assoc]
    exact startsWithIdKey_selector_iff v _ _
  · intro c hc
    simp only [close_view, List.mem_singleton] at hc
    subst hc
    show startsWithIdKey ("[id=" ++ toString vid ++ "] kill")
    rw [String.append_assoc]
    exact startsWithIdKey_append_id _
  · intro c hc
    simp only [set_view_focus, List.mem_singleton] at hc
    subst hc
    show startsWithIdKey ("[id=" ++ toString vid ++ "] focus")
    rw [String.append_assoc]
    exact startsWithIdKey_append_id _

/-- Counterexample to claim C6 as stated: view 5 is not an XWayland view,
yet close_view 5 sends a command whose selector key is "id". -/
theorem C6_close_view_counterexample :
    find_by_id c6tree 5 = some c6view
    ∧ is_xwayland_view c6view = false
    ∧ close_view 5 = [⟨0, "[id=5] kill"⟩]
    ∧ startsWithIdKey "[id=5] kill" :=
  ⟨rfl, rfl, rfl, ⟨"5] kill".data, rfl⟩⟩

/-- Witness for C6 at concrete inputs: the hard-coded kill and focus
commands both use the "id" key. -/
theorem C6_selector_routing_witness :
    startsWithIdKey "[id=3] kill" ∧ startsWithIdKey "[id=3] focus" := by
  have h := C6_selector_routing_amended c6tree 1 3 "w"
  constructor
  · exact h.2.2.1 ⟨0, "[id=3] kill"⟩ (by decide)
  · exact h.2.2.2 ⟨0, "[id=3] focus"⟩ (by decide)

/-! ## Theorems (validation before I/O) -/

/-- Claim C7: subscribing with any event name outside the fixed allow-list
raises before any socket write, and setting an opacity outside [0, 1]
raises before any socket write: in both cases the list of performed writes
is empty and the validation error is reported. -/
theorem C7_validation_before_io (evs : List String) (e : String) (r : Bool)
    (vid : Int) (q : ℚ) (he : e ∈ evs) (hv : e ∉ valid_events)
    (hq : ¬(0 ≤ q ∧ q ≤ 1)) :
    watch (some evs) r = (.invalidEvents, [])
    ∧ set_view_alpha vid q = (some opacityErrorMsg, []) := by
  constructor
  · have hc : valid_events.contains e = false := by
      cases hcc : valid_events.contains e with
      | false => rfl
      | true => exact absurd (List.mem_of_elem_eq_true hcc) hv
    have hmem : e ∈ evs.filter (fun x => !(valid_events.contains x)) :=
      List.mem_filter.2 ⟨he, by rw [hc]; rfl⟩
    have hne : ¬ (evs.filter (fun x => !(valid_events.contains x))).isEmpty = true := by
      rw [List.isEmpty_iff]
      exact List.ne_nil_of_mem hmem
    simp only [watch]
    rw [if_neg hne]
  · unfold set_view_alpha
    rw [if_neg hq]

/-- Witness for C7: subscribe(["bogus"]) and set_view_alpha(1, 2.0). -/
theorem C7_validation_before_io_witness :
    watch (some ["bogus"]) true = (.invalidEvents, [])
    ∧ set_view_alpha 1 2 = (some opacityErrorMsg, []) :=
  C7_validation_before_io ["bogus"] "bogus" true 1 2 (by decide) (by decide)
    (by norm_num)

end Pysway
